import Mathlib

/-!
Verification development for the ConceptBridge backend (`backend_v2`).

This file gives a shallow embedding, in Lean 4, of the analogy request
pipeline of the repository: the Python string operations the code relies
on, a model of the standard-library JSON decoder, the prompt builder, the
generation client (with the external completion call kept abstract), the
response parser with its two fallback tiers, the offline template
fallback generator, and the database-backed endpoints for analogy
generation and feedback.  Numeric computation that Python performs on
floats is modelled over the rationals; the constants involved (1.3, 0.75,
0.15, 0.3, 0.2) and the value ranges in play are such that every
comparison and truncation made by the code has the same outcome in both
semantics.  Wall-clock time is not modelled: every `time.time()`
difference is rendered as 0.
-/

namespace ConceptBridge

/-! ## Python string primitives -/

def wordsAux : List Char → List Char → List String
  | [], cur => if cur.isEmpty then [] else [String.mk cur.reverse]
  | c :: cs, cur =>
    if c.isWhitespace then
      if cur.isEmpty then wordsAux cs [] else String.mk cur.reverse :: wordsAux cs []
    else wordsAux cs (c :: cur)

/-- Python `str.split()` with no argument: split on whitespace runs and
drop empty pieces. -/
def pyWords (s : String) : List String := wordsAux s.data []

/-- Python `str.lower()` (ASCII model). -/
def pyLower (s : String) : String := String.mk (s.data.map Char.toLower)

/-- Python `str.upper()` (ASCII model). -/
def pyUpper (s : String) : String := String.mk (s.data.map Char.toUpper)

def pyTitleAux : Bool → List Char → List Char
  | _, [] => []
  | prevAlpha, c :: cs =>
    if c.isAlpha then
      (if prevAlpha then c.toLower else c.toUpper) :: pyTitleAux true cs
    else
      c :: pyTitleAux false cs

/-- Python `str.title()` (ASCII model): the first letter of every maximal
letter run is upper-cased, the rest lower-cased. -/
def pyTitle (s : String) : String := String.mk (pyTitleAux false s.data)

/-- Decides whether `pre` is an initial segment of `l`. -/
def initSeg : List Char → List Char → Bool
  | [], _ => true
  | _ :: _, [] => false
  | a :: as, b :: bs => a == b && initSeg as bs

def charsContain : List Char → List Char → Bool
  | [], needle => initSeg needle []
  | h :: t, needle => initSeg needle (h :: t) || charsContain t needle

/-- Python `needle in hay` on strings: substring containment. -/
def pyIn (needle hay : String) : Bool := charsContain hay.data needle.data

def dropEndWhile (p : Char → Bool) (l : List Char) : List Char :=
  (l.reverse.dropWhile p).reverse

/-- Python `str.strip('"')`-style stripping of one character from both
ends. -/
def pyStripChar (c : Char) (s : String) : String :=
  String.mk (dropEndWhile (· == c) (s.data.dropWhile (· == c)))

/-- Python `str.strip()` with no argument: remove whitespace from both
ends. -/
def pyStrip (s : String) : String :=
  String.mk (dropEndWhile Char.isWhitespace (s.data.dropWhile Char.isWhitespace))

/-- Whether a string begins with the given character
(Python `str.startswith` for a one-character needle). -/
def headIs (s : String) (c : Char) : Bool :=
  match s.data with
  | [] => false
  | d :: _ => d == c

/-- Python slicing `s[:n]` (counting code points). -/
def pyTake (s : String) (n : Nat) : String := String.mk (s.data.take n)

/-- Python `sep.join(xs)`. -/
def pyJoin (sep : String) : List String → String
  | [] => ""
  | [x] => x
  | x :: y :: xs => x ++ sep ++ pyJoin sep (y :: xs)

def splitNlAux : List Char → List Char → List String
  | [], cur => [String.mk cur.reverse]
  | c :: cs, cur =>
    if c == '\n' then String.mk cur.reverse :: splitNlAux cs []
    else splitNlAux cs (c :: cur)

/-- Python `str.split('\n')`. -/
def pySplitNl (s : String) : List String := splitNlAux s.data []

/-- Python truthiness of `a or dflt` for an optional string: `None` and
the empty string are falsy. -/
def pyOrStr (a : Option String) (dflt : String) : String :=
  match a with
  | some s => if s = "" then dflt else s
  | none => dflt

/-- Python truthiness of `a or b` where both operands are optional
strings. -/
def pyOrOpt (a b : Option String) : Option String :=
  match a with
  | some s => if s = "" then b else some s
  | none => b

/-- Rendering of an optional string in a Python f-string: `None` prints
as `"None"`. -/
def pyStr (o : Option String) : String :=
  match o with
  | some s => s
  | none => "None"

/-! ## A model of `json.loads`

The repository delegates JSON decoding to the Python standard library;
the decoder below models it: one JSON value, optionally surrounded by
whitespace, with the standard literal, string, number, array and object
syntax.  Numbers are read into `ℚ`.  Recursion is bounded by a fuel
argument that is amply larger than the nesting depth of any input. -/

inductive Json where
  | null : Json
  | bool : Bool → Json
  | num : ℚ → Json
  | str : String → Json
  | arr : List Json → Json
  | obj : List (String × Json) → Json

/-- Key lookup in a decoded object.  Python builds a `dict`, where a
duplicated key keeps its last occurrence, hence the reversal. -/
def jlookup (fields : List (String × Json)) (key : String) : Option Json :=
  (fields.reverse.find? (fun kv => kv.1 == key)).map (·.2)

def skipWs : List Char → List Char
  | [] => []
  | c :: cs => if c == ' ' || c == '\t' || c == '\n' || c == '\r' then skipWs cs else c :: cs

def hexVal (c : Char) : Option Nat :=
  if 48 ≤ c.toNat ∧ c.toNat ≤ 57 then some (c.toNat - 48)
  else if 97 ≤ c.toNat ∧ c.toNat ≤ 102 then some (c.toNat - 87)
  else if 65 ≤ c.toNat ∧ c.toNat ≤ 70 then some (c.toNat - 55)
  else none

def pStringRest : Nat → List Char → List Char → Option (String × List Char)
  | 0, _, _ => none
  | _ + 1, acc, '\x22' :: rest => some (String.mk acc.reverse, rest)
  | fuel + 1, acc, '\x5c' :: e :: rest =>
    match e with
    | '\x22' => pStringRest fuel ('\x22' :: acc) rest
    | '\x5c' => pStringRest fuel ('\x5c' :: acc) rest
    | '/' => pStringRest fuel ('/' :: acc) rest
    | 'b' => pStringRest fuel ('\x08' :: acc) rest
    | 'f' => pStringRest fuel ('\x0c' :: acc) rest
    | 'n' => pStringRest fuel ('\n' :: acc) rest
    | 'r' => pStringRest fuel ('\x0d' :: acc) rest
    | 't' => pStringRest fuel ('\t' :: acc) rest
    | 'u' =>
      match rest with
      | a :: b :: c :: d :: rest2 =>
        match hexVal a, hexVal b, hexVal c, hexVal d with
        | some ha, some hb, some hc, some hd =>
          pStringRest fuel (Char.ofNat (ha * 4096 + hb * 256 + hc * 16 + hd) :: acc) rest2
        | _, _, _, _ => none
      | _ => none
    | _ => none
  | fuel + 1, acc, c :: rest =>
    if c.toNat < 32 then none else pStringRest fuel (c :: acc) rest
  | _, _, [] => none

def digitsToNat (l : List Char) : Nat :=
  l.foldl (fun n c => 10 * n + (c.toNat - 48)) 0

def pNumber (cs : List Char) : Option (ℚ × List Char) :=
  let (neg, cs1) := match cs with
    | '-' :: t => (true, t)
    | _ => (false, cs)
  let (ds, cs2) := cs1.span Char.isDigit
  if ds.isEmpty then none
  else if 1 < ds.length ∧ ds.head? = some '0' then none
  else
    let intVal : ℚ := (digitsToNat ds : ℚ)
    let fracStep : Option (ℚ × List Char) :=
      match cs2 with
      | '.' :: t =>
        let (fs, cs3) := t.span Char.isDigit
        if fs.isEmpty then none
        else some (intVal + (digitsToNat fs : ℚ) / (10 : ℚ) ^ fs.length, cs3)
      | _ => some (intVal, cs2)
    match fracStep with
    | none => none
    | some (v1, cs3) =>
      let expStep : Option (ℚ × List Char) :=
        match cs3 with
        | e :: t =>
          if e == 'e' || e == 'E' then
            let (esign, t1) := match t with
              | '-' :: t2 => (true, t2)
              | '+' :: t2 => (false, t2)
              | _ => (false, t)
            let (es, cs4) := t1.span Char.isDigit
            if es.isEmpty then none
            else if esign then some (v1 / (10 : ℚ) ^ digitsToNat es, cs4)
            else some (v1 * (10 : ℚ) ^ digitsToNat es, cs4)
          else some (v1, cs3)
        | [] => some (v1, cs3)
      match expStep with
      | none => none
      | some (v2, cs4) => some ((if neg then -v2 else v2), cs4)

mutual

def pValue : Nat → List Char → Option (Json × List Char)
  | 0, _ => none
  | fuel + 1, cs =>
    match skipWs cs with
    | 'n' :: 'u' :: 'l' :: 'l' :: rest => some (.null, rest)
    | 't' :: 'r' :: 'u' :: 'e' :: rest => some (.bool true, rest)
    | 'f' :: 'a' :: 'l' :: 's' :: 'e' :: rest => some (.bool false, rest)
    | '\x22' :: rest =>
      match pStringRest (rest.length + 1) [] rest with
      | some (s, r) => some (.str s, r)
      | none => none
    | '\x7b' :: rest =>
      match skipWs rest with
      | '\x7d' :: r2 => some (.obj [], r2)
      | _ => pMembers fuel (skipWs rest) []
    | '[' :: rest =>
      match skipWs rest with
      | ']' :: r2 => some (.arr [], r2)
      | _ => pItems fuel (skipWs rest) []
    | c :: rest =>
      if c == '-' || c.isDigit then
        match pNumber (c :: rest) with
        | some (q, r) => some (.num q, r)
        | none => none
      else none
    | [] => none

def pMembers : Nat → List Char → List (String × Json) → Option (Json × List Char)
  | 0, _, _ => none
  | fuel + 1, cs, acc =>
    match skipWs cs with
    | '\x22' :: rest =>
      match pStringRest (rest.length + 1) [] rest with
      | none => none
      | some (key, r1) =>
        match skipWs r1 with
        | ':' :: r2 =>
          match pValue fuel r2 with
          | none => none
          | some (v, r3) =>
            match skipWs r3 with
            | ',' :: r4 => pMembers fuel r4 ((key, v) :: acc)
            | '\x7d' :: r4 => some (.obj ((key, v) :: acc).reverse, r4)
            | _ => none
        | _ => none
    | _ => none

def pItems : Nat → List Char → List Json → Option (Json × List Char)
  | 0, _, _ => none
  | fuel + 1, cs, acc =>
    match pValue fuel cs with
    | none => none
    | some (v, r1) =>
      match skipWs r1 with
      | ',' :: r2 => pItems fuel r2 (v :: acc)
      | ']' :: r2 => some (.arr (v :: acc).reverse, r2)
      | _ => none

end

/-- Model of Python `json.loads`: decode one value, allow surrounding
whitespace, refuse trailing garbage.  `none` models a raised
`JSONDecodeError`. -/
def jsonLoads (s : String) : Option Json :=
  match pValue (2 * s.length + 2) s.data with
  | some (v, rest) =>
    match skipWs rest with
    | [] => some v
    | _ => none
  | none => none

/-! ## JSON rendering (model of `json.dumps`, ASCII output) -/

def pyNumRender (q : ℚ) : String :=
  if q.den = 1 then toString q.num else toString q

def hexDigit (n : Nat) : Char :=
  if n < 10 then Char.ofNat (48 + n) else Char.ofNat (87 + (n - 10))

def escChar (c : Char) : List Char :=
  if c == '\x22' then ['\x5c', '\x22']
  else if c == '\x5c' then ['\x5c', '\x5c']
  else if c == '\n' then ['\x5c', 'n']
  else if c == '\x0d' then ['\x5c', 'r']
  else if c == '\t' then ['\x5c', 't']
  else if c == '\x08' then ['\x5c', 'b']
  else if c == '\x0c' then ['\x5c', 'f']
  else if c.toNat < 32 || 127 ≤ c.toNat then
    ['\x5c', 'u', hexDigit (c.toNat / 4096 % 16), hexDigit (c.toNat / 256 % 16),
     hexDigit (c.toNat / 16 % 16), hexDigit (c.toNat % 16)]
  else [c]

def jsonDumpStr (s : String) : String :=
  String.mk ('\x22' :: s.data.foldr (fun c acc => escChar c ++ acc) ['\x22'])

mutual

def jsonDump : Json → String
  | .null => "null"
  | .bool true => "true"
  | .bool false => "false"
  | .num q => pyNumRender q
  | .str s => jsonDumpStr s
  | .arr l => "[" ++ pyJoin ", " (jsonDumpList l) ++ "]"
  | .obj fs => "\x7b" ++ pyJoin ", " (jsonDumpFields fs) ++ "\x7d"

def jsonDumpList : List Json → List String
  | [] => []
  | v :: rest => jsonDump v :: jsonDumpList rest

def jsonDumpFields : List (String × Json) → List String
  | [] => []
  | (k, v) :: rest => (jsonDumpStr k ++ ": " ++ jsonDump v) :: jsonDumpFields rest

end

/-! ## Service data (`app/services/analogy_service.py`) -/

/-- Schema `AnalogyExample` (`app/schemas.py`, lines 85-90). -/
structure AnalogyExample where
  title : String
  description : String
  code_snippet : Option String := none
  visual_metaphor : Option String := none
deriving DecidableEq, Repr

/-- The normalized result of `_parse_analogy_response`. -/
structure ParsedAnalogy where
  title : String
  explanation : String
  examples : List AnalogyExample
deriving DecidableEq, Repr

/-- One entry of `self.profession_contexts`. -/
structure ProfessionContext where
  keywords : List String
  metaphors : List String
  examples : List String

/-- The static per-profession vocabulary table
(`analogy_service.py`, lines 21-47), keyed by lower-cased profession. -/
def profession_contexts (name : String) : Option ProfessionContext :=
  if name = "cooking" then some
    { keywords := ["recipe", "ingredients", "cooking process", "kitchen tools", "preparation", "seasoning", "timing"],
      metaphors := ["mixing ingredients", "following recipes", "kitchen workflow", "taste testing", "meal planning"],
      examples := ["preparing a multi-course meal", "organizing a kitchen", "scaling recipes", "ingredient substitution"] }
  else if name = "gaming" then some
    { keywords := ["levels", "progression", "stats", "inventory", "quests", "NPCs", "skill trees", "gameplay"],
      metaphors := ["character builds", "quest completion", "resource management", "level progression", "guild systems"],
      examples := ["RPG character development", "strategy game tactics", "puzzle-solving mechanics", "multiplayer coordination"] }
  else if name = "sports" then some
    { keywords := ["team strategy", "training", "performance", "competition", "tactics", "coaching", "practice"],
      metaphors := ["team formations", "training regimens", "game strategy", "performance metrics", "tournament brackets"],
      examples := ["building a winning team", "developing game strategy", "analyzing player statistics", "tournament preparation"] }
  else if name = "music" then some
    { keywords := ["harmony", "rhythm", "composition", "instruments", "scales", "tempo", "arrangement"],
      metaphors := ["musical composition", "orchestra coordination", "rhythm patterns", "harmonic progressions", "song structure"],
      examples := ["composing a symphony", "arranging instruments", "creating rhythm patterns", "musical improvisation"] }
  else if name = "business" then some
    { keywords := ["organization", "processes", "management", "efficiency", "workflow", "teams", "projects"],
      metaphors := ["company structure", "project management", "resource allocation", "team coordination", "business strategy"],
      examples := ["organizational hierarchy", "project planning", "resource optimization", "team management"] }
  else none

/-- `_get_system_prompt` (lines 116-157).  The `max_tokens` argument is
the already-computed safe budget; its interpolation into the text is
rendered with `pyNumRender` (no spec claim inspects this string). -/
def get_system_prompt (response_format : String) (max_tokens : ℚ) : String :=
  let pair :=
    if response_format = "concise" ∨ max_tokens < 800 then
      ("Keep your response concise but complete. Focus on the core analogy and 1-2 key examples.",
       "1-2 examples")
    else if response_format = "comprehensive" ∨ 2500 < max_tokens then
      ("Provide a comprehensive explanation with detailed examples and practical applications.",
       "3-4 examples")
    else
      ("Provide a thorough but focused explanation that fits within the token limit.",
       "2-3 examples")
  "You are ConceptBridge AI, an expert at creating personalized learning analogies. Your job is to explain complex concepts using analogies from the user\x27s professional background.\n\n"
  ++ "Guidelines:\n"
  ++ "1. Create analogies that are accurate, memorable, and directly relatable\n"
  ++ "2. Use specific terminology and scenarios from the user\x27s profession\n"
  ++ "3. Provide " ++ pair.2 ++ " that illuminate the concept\n"
  ++ "4. Make abstract ideas tangible through familiar experiences\n"
  ++ "5. Ensure the analogy actually helps understanding, not just entertains\n"
  ++ "6. " ++ pair.1 ++ "\n"
  ++ "7. IMPORTANT: Complete your response within " ++ pyNumRender max_tokens ++ " tokens - prioritize clarity and completeness over length\n\n"
  ++ "Response Format (JSON):\n"
  ++ "\x7b\n"
  ++ "  \"title\": \"Catchy analogy title\",\n"
  ++ "  \"explanation\": \"Detailed explanation using the analogy (2-4 paragraphs)\",\n"
  ++ "  \"examples\": [\n"
  ++ "    \x7b\n"
  ++ "      \"title\": \"Example Title\",\n"
  ++ "      \"description\": \"Clear example description\",\n"
  ++ "      \"code_snippet\": \"Optional code/pseudo-code\",\n"
  ++ "      \"visual_metaphor\": \"Visual description\"\n"
  ++ "    \x7d\n"
  ++ "  ],\n"
  ++ "  \"key_connections\": [\"Connection 1\", \"Connection 2\"],\n"
  ++ "  \"practical_applications\": [\"Application 1\", \"Application 2\"]\n"
  ++ "\x7d\n\n"
  ++ "Remember: Finish your JSON response completely within the token limit. Prioritize the core analogy over extensive examples if needed."

/-- `_build_analogy_prompt` (lines 159-213).  The f-string template is a
literal that starts with a newline and ends with one, and the source
applies `.strip()`; since the first template character after the leading
newline is a letter and the last before the trailing whitespace is a
period, the stripped result is embedded directly.  `difficulty_level`
and `concept_description` may be `None` at the call site and then render
as `"None"`. -/
def build_analogy_prompt (profession concept_name : String)
    (concept_description : Option String) (topic_context : String)
    (difficulty_level : Option String) (creativity_level : Int)
    (max_tokens : Int) (response_format : String) : String :=
  let ctx := (profession_contexts (pyLower profession)).getD
    { keywords := ["processes", "systems", "organization"],
      metaphors := ["structured approaches", "systematic thinking"],
      examples := ["workflow optimization", "systematic problem solving"] }
  let pair :=
    if max_tokens < 1000 then
      ("Keep your explanation concise but complete.", "Provide 1-2 clear examples.")
    else if 2500 < max_tokens then
      ("Provide comprehensive details with rich examples.",
       "Include 3-4 detailed examples with code snippets where helpful.")
    else
      ("Balance detail with clarity.", "Provide 2-3 well-crafted examples.")
  "Create a personalized analogy to explain \"" ++ concept_name ++ "\" to someone with a " ++ profession ++ " background.\n\n"
  ++ "CONCEPT TO EXPLAIN:\n"
  ++ "- Name: " ++ concept_name ++ "\n"
  ++ "- Description: " ++ pyStr concept_description ++ "\n"
  ++ "- Topic Context: " ++ topic_context ++ "\n"
  ++ "- Target Difficulty: " ++ pyStr difficulty_level ++ "\n\n"
  ++ "USER\x27S BACKGROUND (" ++ pyUpper profession ++ "):\n"
  ++ "- Keywords: " ++ pyJoin ", " (ctx.keywords.take 5) ++ "\n"
  ++ "- Common Scenarios: " ++ pyJoin ", " (ctx.examples.take 3) ++ "\n\n"
  ++ "RESPONSE REQUIREMENTS:\n"
  ++ "- Format: " ++ response_format ++ "\n"
  ++ "- Token Budget: " ++ toString max_tokens ++ " tokens max\n"
  ++ "- " ++ pair.1 ++ "\n"
  ++ "- " ++ pair.2 ++ "\n"
  ++ "- Creativity Level: " ++ toString creativity_level ++ "/5\n\n"
  ++ "IMPORTANT: Your response must be COMPLETE within " ++ toString max_tokens ++ " tokens. Structure your JSON response to fit this limit. If needed, prioritize the core analogy and explanation over extensive examples.\n\n"
  ++ "Requirements:\n"
  ++ "1. Use terminology specifically from " ++ profession ++ "\n"
  ++ "2. " ++ pyLower pair.2 ++ "\n"
  ++ "3. Ensure technical accuracy while maintaining the analogy\n"
  ++ "4. Complete your JSON response fully - do not cut off mid-sentence\n"
  ++ "5. If approaching token limit, conclude gracefully rather than stopping abruptly\n\n"
  ++ "Provide your response in the JSON format specified in the system prompt."

/-! ## Generation client token math (`generate_analogy`, lines 73-89) -/

/-- Line 74: `input_tokens = len(prompt.split()) * 1.3`. -/
def estimated_input_tokens (prompt : String) : ℚ :=
  ((pyWords prompt).length : ℚ) * (13 / 10)

/-- Lines 75-76: `safe_max_tokens = min(max_tokens - int(input_tokens),
max_tokens * 0.75)` then `max(safe_max_tokens, 300)`.  The estimate is
nonnegative, so Python `int()` truncation agrees with the floor. -/
def safe_max_tokens (max_tokens : Int) (prompt : String) : ℚ :=
  let clamped : ℚ :=
    min ((max_tokens : ℚ) - (⌊estimated_input_tokens prompt⌋ : ℚ)) ((max_tokens : ℚ) * (3 / 4))
  max clamped 300

/-- Line 87: `temperature=min(0.3 + (creativity_level * 0.15), 1.0)`. -/
def temperature_of (creativity_level : Int) : ℚ :=
  min ((3 / 10 : ℚ) + (creativity_level : ℚ) * (15 / 100)) 1

/-- The argument bundle handed to the external chat-completion call
(lines 81-89).  The call itself is kept abstract. -/
structure CompletionRequest where
  system_content : String
  user_content : String
  temperature : ℚ
  max_tokens : Int

/-- The completion request that `generate_analogy` builds from its
arguments before invoking the provider (lines 66-89).  The final
`int(safe_max_tokens)` truncation agrees with the floor because the safe
budget is at least 300. -/
def completion_request_of (profession concept_name : String)
    (concept_description : Option String) (topic_context : String)
    (difficulty_level : Option String) (creativity_level : Int)
    (max_tokens : Int) (response_format : String) : CompletionRequest :=
  let prompt := build_analogy_prompt profession concept_name concept_description
    topic_context difficulty_level creativity_level max_tokens response_format
  let safe := safe_max_tokens max_tokens prompt
  { system_content := get_system_prompt response_format safe,
    user_content := prompt,
    temperature := temperature_of creativity_level,
    max_tokens := ⌊safe⌋ }

/-! ## Response parsing (`_parse_analogy_response`, lines 215-248, and
`_extract_analogy_parts`, lines 250-269) -/

def jsonGet (data : Json) (key : String) : Option Json :=
  match data with
  | .obj fs => jlookup fs key
  | _ => none

/-- `data.get(key, dflt)` specialised to the string fields the parser
reads.  A present non-string value is rendered through `jsonDump` (a
modelling coarseness for a branch no claim exercises; Python would carry
the raw object). -/
def jsonFieldStr (data : Json) (key dflt : String) : String :=
  match jsonGet data key with
  | some (.str s) => s
  | some v => jsonDump v
  | none => dflt

/-- Building one `AnalogyExample` from a decoded example object
(lines 229-234).  `none` models a raised validation error: the schema
requires `title`/`description` to be strings and the two optional fields
to be strings or null. -/
def exampleFieldStr (fields : List (String × Json)) (key dflt : String) : Option String :=
  match jlookup fields key with
  | none => some dflt
  | some (.str s) => some s
  | some _ => none

def exampleFieldOpt (fields : List (String × Json)) (key : String) : Option (Option String) :=
  match jlookup fields key with
  | none => some none
  | some .null => some none
  | some (.str s) => some (some s)
  | some _ => none

def exampleOfJson (fields : List (String × Json)) : Option AnalogyExample := do
  let t ← exampleFieldStr fields "title" "Example"
  let d ← exampleFieldStr fields "description" ""
  let cs ← exampleFieldOpt fields "code_snippet"
  let vm ← exampleFieldOpt fields "visual_metaphor"
  some { title := t, description := d, code_snippet := cs, visual_metaphor := vm }

/-- The `for ex in data.get("examples", [])` loop (lines 226-234):
non-dict elements are skipped by the `isinstance` check; a failing
element construction aborts the whole parse attempt. -/
def examplesFromList : List Json → Option (List AnalogyExample)
  | [] => some []
  | .obj fs :: rest =>
    match exampleOfJson fs with
    | some ex => (examplesFromList rest).map (ex :: ·)
    | none => none
  | _ :: rest => examplesFromList rest

/-- The value under `"examples"`: an absent key defaults to `[]`;
iterating a dict yields its (string) keys and iterating a string yields
characters, all skipped as non-dicts; a non-iterable value raises,
aborting the attempt. -/
def examplesOfJson : Option Json → Option (List AnalogyExample)
  | none => some []
  | some (.arr l) => examplesFromList l
  | some (.obj _) => some []
  | some (.str _) => some []
  | some _ => none

/-- `_extract_analogy_parts` (lines 250-269): scan the first three lines
for a short analogy-looking title, keep the full text as the
explanation, no examples.  The result is the dict the caller then reads
fields from. -/
def extract_analogy_parts (content : String) : Json :=
  let lines := pySplitNl content
  let title :=
    match (lines.take 3).find? (fun line =>
        (0 < (pyStrip line).length && (pyStrip line).length < 100) &&
        (["like", "analogy", "imagine", "think of"].any (fun kw => pyIn kw (pyLower line)))) with
    | some line => pyStrip (pyStripChar '\x22' (pyStrip line))
    | none => "Understanding Through Analogy"
  .obj [("title", .str title), ("explanation", .str content), ("examples", .arr [])]

/-- `_parse_analogy_response` (lines 215-248).  The whole attempt is
wrapped in a `try`; any failure (JSON decode error, or a non-iterable
`examples` value, or an invalid example object) lands in the `except`
branch that truncates the raw text to 500 characters and appends
`"..."`. -/
def parse_analogy_response (content : String) : ParsedAnalogy :=
  let attempt : Option ParsedAnalogy := do
    let data ←
      if headIs (pyStrip content) '\x7b' then jsonLoads content
      else some (extract_analogy_parts content)
    let exs ← examplesOfJson (jsonGet data "examples")
    some { title := jsonFieldStr data "title" "Concept Explanation",
           explanation := jsonFieldStr data "explanation" "",
           examples := exs }
  match attempt with
  | some r => r
  | none =>
    { title := "Understanding Through Analogy",
      explanation := if 500 < content.length then pyTake content 500 ++ "..." else content,
      examples := [] }

/-! ## Fallback generator (`_generate_fallback_analogy`, lines 271-303) -/

/-- `_generate_fallback_analogy`: pure template text from the static
vocabulary table; the source template is a literal wrapped in
`.strip()`, whose effect is resolved in the embedding (the stripped
template starts with a letter and ends with a period). -/
def generate_fallback_analogy (profession concept_name : String)
    (concept_description : Option String) (generation_time : ℚ) :
    String × String × List AnalogyExample × ℚ :=
  let ctx := profession_contexts (pyLower profession)
  let title := "Understanding " ++ concept_name ++ " Through " ++ pyTitle profession
  let kw3 := pyJoin ", "
    ((match ctx with | some c => c.keywords | none => ["systems", "processes"]).take 3)
  let ex0 := (match ctx with | some c => c.examples | none => ["a structured process"]).getD 0
    "a structured process"
  let explanation :=
    "Let me explain " ++ concept_name ++ " using concepts from " ++ profession
    ++ " that you\x27re familiar with.\n\n"
    ++ pyStr concept_description ++ "\n\n"
    ++ "In " ++ profession ++ ", you probably work with " ++ kw3 ++ ". \n"
    ++ concept_name ++ " works in a similar way - it\x27s about organizing and managing information systematically.\n\n"
    ++ "Think of it like " ++ ex0 ++ " where you need to:\n"
    ++ "1. Understand the components involved\n"
    ++ "2. Follow a systematic approach\n"
    ++ "3. Achieve a specific outcome efficiently\n\n"
    ++ "This concept is fundamental in computer science because it helps solve complex problems by breaking them down into manageable parts, much like how you approach challenges in "
    ++ profession ++ "."
  let kw0 := (match ctx with | some c => c.keywords | none => ["items"]).getD 0 "items"
  let examples : List AnalogyExample :=
    [{ title := "Basic " ++ concept_name ++ " Example",
       description := "A simple example relating " ++ concept_name ++ " to " ++ profession ++ " practices",
       code_snippet := none,
       visual_metaphor := some ("Like organizing " ++ kw0) }]
  (title, explanation, examples, generation_time)

/-! ## The generation client (`generate_analogy`, lines 49-114) -/

/-- `generate_analogy`.  The external provider is abstracted as an
oracle from the built completion request to an optional reply body:
`none` models any raised provider error (network, auth, malformed
request, missing content), which the `except` at line 111 turns into the
offline fallback.  A `None` creativity level (the router forwards the
request field unchecked) makes the temperature expression at line 87
raise inside the same `try`, landing in the fallback as well.
Wall-clock generation time is modelled as 0. -/
def generate_analogy (oracle : CompletionRequest → Option String)
    (profession concept_name : String) (concept_description : Option String)
    (topic_context : String) (difficulty_level : Option String)
    (creativity_level : Option Int) (max_tokens : Int)
    (response_format : String) : String × String × List AnalogyExample × ℚ :=
  match creativity_level with
  | none => generate_fallback_analogy profession concept_name concept_description 0
  | some level =>
    let creq := completion_request_of profession concept_name concept_description
      topic_context difficulty_level level max_tokens response_format
    match oracle creq with
    | none => generate_fallback_analogy profession concept_name concept_description 0
    | some content =>
      let d := parse_analogy_response content
      (d.title, d.explanation, d.examples, 0)

/-! ## Relational state (`app/models.py`)

Rows carry the columns the pipeline reads or writes; server-filled
timestamps are not modelled.  The database is a per-table list of rows
plus the next autoincrement key for the two tables the pipeline inserts
into. -/

structure ProfessionRow where
  id : Int
  name : String
  description : Option String := none
deriving DecidableEq, Repr

structure TopicRow where
  id : Int
  name : String
  description : Option String := none
deriving DecidableEq, Repr

structure SubtopicRow where
  id : Int
  topic_id : Int
  name : String
  description : Option String := none
deriving DecidableEq, Repr

structure SessionRow where
  id : Int
  user_identifier : String
  profession_id : Int
  topic_id : Int
  subtopic_id : Option Int := none
  is_active : Bool := true
deriving DecidableEq, Repr

structure AnalogyRow where
  id : Int
  session_id : Int
  concept_name : String
  concept_description : Option String
  analogy_title : String
  analogy_explanation : String
  analogy_examples : String
  ai_model_used : String := "gpt-4"
  generation_time_seconds : ℚ := 0
  prompt_template_version : String := "v1.0"
  user_rating : Option Int := none
  understanding_score : Option ℚ := none
deriving DecidableEq, Repr

structure DB where
  professions : List ProfessionRow := []
  topics : List TopicRow := []
  subtopics : List SubtopicRow := []
  learning_sessions : List SessionRow := []
  generated_analogies : List AnalogyRow := []
  next_session_id : Int := 1
  next_analogy_id : Int := 1
deriving DecidableEq, Repr

/-- Replace the first row satisfying `p` (the ORM mutates the object
returned by `.first()` in place). -/
def updateFirst (p : α → Bool) (f : α → α) : List α → List α
  | [] => []
  | x :: xs => if p x then f x :: xs else x :: updateFirst p f xs

/-! ## Request schemas (`app/schemas.py`) -/

/-- Schema `AnalogyRequest` (`schemas.py`, lines 74-83): exactly these
eight fields, with these defaults. -/
structure AnalogyRequest where
  user_identifier : String
  profession_id : Int
  topic_id : Int
  subtopic_id : Option Int := none
  concept_name : Option String := none
  concept_description : Option String := none
  difficulty_preference : Option String := some "intermediate"
  creative_level : Option Int := some 3
deriving DecidableEq, Repr

/-- Pydantic attribute lookup on an `AnalogyRequest` for the int-valued
attribute names the router dereferences: an attribute that is not a
declared field raises `AttributeError`, modelled as `none`.  In
particular `"max_tokens"` is not a field of the schema. -/
def analogyRequestAttrInt (req : AnalogyRequest) (attr : String) : Option Int :=
  if attr = "profession_id" then some req.profession_id
  else if attr = "topic_id" then some req.topic_id
  else none

/-- Pydantic attribute lookup for the string-valued attribute names the
router dereferences.  `"response_format"` is not a field of the
schema. -/
def analogyRequestAttrStr (req : AnalogyRequest) (attr : String) : Option String :=
  if attr = "user_identifier" then some req.user_identifier
  else none

/-- Schema `AnalogyFeedback` (`schemas.py`, lines 133-138). -/
structure AnalogyFeedback where
  analogy_id : Int
  user_rating : Int
  feedback_text : Option String := none
  understanding_improved : Bool
deriving DecidableEq, Repr

/-- Schema `GeneratedAnalogyResponse` (`schemas.py`, lines 92-117);
`created_at` (a server-filled timestamp) is not modelled, and
`concept_description` / `difficulty_level` keep the optional values the
router actually passes. -/
structure GeneratedAnalogyResponse where
  analogy_id : Int
  session_id : Int
  concept_name : String
  concept_description : Option String
  analogy_title : String
  analogy_explanation : String
  examples : List AnalogyExample
  profession_context : String
  topic_context : String
  difficulty_level : Option String
  ai_model_used : String
  generation_time_seconds : ℚ
deriving DecidableEq, Repr

inductive EndpointResult where
  | ok : GeneratedAnalogyResponse → EndpointResult
  | httpError : Nat → EndpointResult
deriving DecidableEq, Repr

/-! ## The generate endpoint (`app/routers/analogies.py`, lines 26-147) -/

/-- Lines 69-87: find an active session for
(user_identifier, profession_id, topic_id) or create and commit one. -/
def find_or_create_session (db : DB) (user_identifier : String)
    (profession_id topic_id : Int) (subtopic_id : Option Int) : DB × SessionRow :=
  match db.learning_sessions.find? (fun s =>
      s.user_identifier == user_identifier && s.profession_id == profession_id
        && s.topic_id == topic_id && s.is_active) with
  | some s => (db, s)
  | none =>
    let s : SessionRow :=
      { id := db.next_session_id, user_identifier := user_identifier,
        profession_id := profession_id, topic_id := topic_id,
        subtopic_id := subtopic_id, is_active := true }
    ({ db with learning_sessions := db.learning_sessions ++ [s],
               next_session_id := db.next_session_id + 1 }, s)

/-- Lines 104-114: the `GeneratedAnalogy` row the router inserts. -/
def mk_generated_analogy (next_id session_id : Int) (concept_name : String)
    (concept_description : Option String) (analogy_title analogy_explanation : String)
    (examples : List AnalogyExample) (generation_time : ℚ) : AnalogyRow :=
  { id := next_id, session_id := session_id, concept_name := concept_name,
    concept_description := concept_description, analogy_title := analogy_title,
    analogy_explanation := analogy_explanation,
    analogy_examples :=
      if examples.isEmpty then "[]"
      else jsonDump (.arr (examples.map (fun ex => .obj
        [("title", .str ex.title), ("description", .str ex.description),
         ("code_snippet", match ex.code_snippet with | some s => .str s | none => .null),
         ("visual_metaphor", match ex.visual_metaphor with | some s => .str s | none => .null)]))),
    ai_model_used := "gpt-4", generation_time_seconds := generation_time,
    prompt_template_version := "v1.0", user_rating := none, understanding_score := none }

/-- `generate_personalized_analogy` (lines 26-147).  Unknown ids give
404 before any write.  After the session commit, line 90 interpolates
`request.max_tokens` and `request.response_format` into a log message;
neither is a field of `AnalogyRequest` (`schemas.py`, lines 74-83), so
the pydantic attribute lookup raises `AttributeError`, which the
catch-all at line 142 converts into a 500.  The continuation past that
line is kept for completeness. -/
def generate_personalized_analogy (db : DB) (req : AnalogyRequest)
    (oracle : CompletionRequest → Option String) : DB × EndpointResult :=
  match db.professions.find? (fun p => p.id == req.profession_id) with
  | none => (db, .httpError 404)
  | some profession =>
  match db.topics.find? (fun t => t.id == req.topic_id) with
  | none => (db, .httpError 404)
  | some topic =>
  -- `if request.subtopic_id:` — Python truthiness, so a supplied 0 is
  -- treated like an absent subtopic and skips the existence check.
  let subtopicStep : Option (Option SubtopicRow) :=
    match req.subtopic_id with
    | some sid =>
      if sid ≠ 0 then
        match db.subtopics.find? (fun st => st.id == sid) with
        | some st => some (some st)
        | none => none
      else some none
    | none => some none
  match subtopicStep with
  | none => (db, .httpError 404)
  | some subtopic =>
  let concept_name := pyOrStr req.concept_name
    (match subtopic with | some st => st.name | none => topic.name)
  let concept_description := pyOrOpt req.concept_description
    (match subtopic with | some st => st.description | none => topic.description)
  let (db1, session) := find_or_create_session db req.user_identifier
    req.profession_id req.topic_id req.subtopic_id
  match analogyRequestAttrInt req "max_tokens",
        analogyRequestAttrStr req "response_format" with
  | some mt, some fmt =>
    let (analogy_title, analogy_explanation, examples, generation_time) :=
      generate_analogy oracle profession.name concept_name concept_description
        topic.name req.difficulty_preference req.creative_level mt fmt
    let row := mk_generated_analogy db1.next_analogy_id session.id concept_name
      concept_description analogy_title analogy_explanation examples generation_time
    let db2 := { db1 with generated_analogies := db1.generated_analogies ++ [row],
                          next_analogy_id := db1.next_analogy_id + 1 }
    (db2, .ok
      { analogy_id := row.id, session_id := session.id, concept_name := concept_name,
        concept_description := concept_description, analogy_title := analogy_title,
        analogy_explanation := analogy_explanation, examples := examples,
        profession_context := profession.name, topic_context := topic.name,
        difficulty_level := req.difficulty_preference, ai_model_used := "gpt-4",
        generation_time_seconds := generation_time })
  | _, _ => (db1, .httpError 500)

/-! ## The feedback endpoint (`submit_analogy_feedback`, lines 149-192) -/

inductive FeedbackResult where
  | ok : String → Int → Int → ℚ → FeedbackResult
  | httpError : Nat → FeedbackResult
deriving DecidableEq, Repr

/-- Lines 167-170: `understanding_score = user_rating / 5.0`, plus a
0.2 bonus capped at 1.0 when understanding improved. -/
def understanding_score_of (user_rating : Int) (understanding_improved : Bool) : ℚ :=
  let s : ℚ := (user_rating : ℚ) / 5
  if understanding_improved then min (s + 2 / 10) 1 else s

/-- `submit_analogy_feedback`: 404 when the analogy id is unknown,
otherwise set `user_rating` and `understanding_score` on the found row,
commit, and return the computed score.  `feedback_text` is read from the
request schema but never used. -/
def submit_analogy_feedback (db : DB) (fb : AnalogyFeedback) : DB × FeedbackResult :=
  match db.generated_analogies.find? (fun a => a.id == fb.analogy_id) with
  | none => (db, .httpError 404)
  | some _ =>
    let score := understanding_score_of fb.user_rating fb.understanding_improved
    let db' := { db with generated_analogies :=
      (updateFirst (fun a => a.id == fb.analogy_id)
        (fun a => { a with user_rating := some fb.user_rating,
                           understanding_score := some score })
        db.generated_analogies) }
    (db', .ok "Feedback submitted successfully" fb.analogy_id fb.user_rating score)

/-! ## Spec-side definition for the token-budget refinement claim -/

/-- The output-token budget as the specification words it: "a safe output
budget as `max(token_budget − estimated_input, token_budget × 0.75)`
clamped to a minimum floor (300)".  To be compared against
`safe_max_tokens`, which embeds the source. -/
def claimed_safe_output_budget (token_budget : Int) (prompt : String) : ℚ :=
  max (max ((token_budget : ℚ) - estimated_input_tokens prompt) ((token_budget : ℚ) * (3 / 4))) 300

/-! ## Concrete instances used by the closed theorems -/

/-- A catalog holding the profession and topic the sample requests refer
to. -/
def demoDB : DB :=
  { professions := [{ id := 1, name := "cooking", description := some "Culinary arts" }],
    topics := [{ id := 1, name := "Data Structures", description := some "Organizing data" }] }

/-- A well-formed generation request whose profession and topic ids both
exist in `demoDB`. -/
def demoRequest : AnalogyRequest :=
  { user_identifier := "learner-1", profession_id := 1, topic_id := 1 }

/-- The same request with a supplied subtopic id 0, which no subtopic
row carries. -/
def zeroSubtopicRequest : AnalogyRequest := { demoRequest with subtopic_id := some 0 }

/-- The same request with a supplied nonzero subtopic id absent from the
catalog. -/
def missingSubtopicRequest : AnalogyRequest := { demoRequest with subtopic_id := some 7 }

/-- A concrete built prompt for the generation client. -/
def c2_prompt : String :=
  build_analogy_prompt "cooking" "recursion" (some "A function calling itself")
    "Programming" (some "intermediate") 3 2000 "detailed"

/-- A provider reply that starts with a brace but is not valid JSON and
is longer than 500 characters. -/
def malformed_long_reply : String := "\x7b" ++ String.mk (List.replicate 501 'x')

def demoAnalogyRow : AnalogyRow :=
  { id := 1, session_id := 42, concept_name := "recursion",
    concept_description := some "A function calling itself",
    analogy_title := "Recursion as recipe steps",
    analogy_explanation := "Like a recipe that refers to itself.",
    analogy_examples := "[]" }

def feedback_db : DB := { generated_analogies := [demoAnalogyRow] }

def improvedFeedback : AnalogyFeedback :=
  { analogy_id := 1, user_rating := 3, understanding_improved := true }

def demoSession : SessionRow :=
  { id := 42, user_identifier := "learner-1", profession_id := 1, topic_id := 1,
    subtopic_id := none, is_active := true }

def active_session_db : DB := { learning_sessions := [demoSession] }

set_option maxRecDepth 100000

/-! ## Helper lemmas -/

theorem append_ne_empty_right (s t : String) (h : t.data ≠ []) : s ++ t ≠ "" := by
  intro he
  have h2 : (s ++ t).data = [] := by rw [he]
  rw [String.data_append] at h2
  exact h (List.append_eq_nil.mp h2).2

theorem append_ne_empty_of_ne (s t : String) (h : s ≠ "") : s ++ t ≠ "" := by
  intro he
  have h2 : (s ++ t).data = [] := by rw [he]
  rw [String.data_append] at h2
  exact h (String.ext (List.append_eq_nil.mp h2).1)

theorem find?_updateFirst {α : Type _} (p : α → Bool) (f : α → α)
    (hp : ∀ x, p (f x) = p x) (l : List α) (a : α)
    (h : l.find? p = some a) :
    (updateFirst p f l).find? p = some (f a) := by
  induction l with
  | nil => simp at h
  | cons x xs ih =>
    cases hx : p x with
    | true =>
      rw [List.find?_cons_of_pos _ hx] at h
      obtain rfl := Option.some.inj h
      simp only [updateFirst, hx, if_true]
      rw [List.find?_cons_of_pos _ (by rw [hp x]; exact hx)]
    | false =>
      rw [List.find?_cons_of_neg _ (by simp [hx])] at h
      simp only [updateFirst, hx, Bool.false_eq_true, if_false]
      rw [List.find?_cons_of_neg _ (by simp [hx])]
      exact ih h

theorem forall2_updateFirst {α : Type _} (R : α → α → Prop) (p : α → Bool) (f : α → α)
    (hrefl : ∀ x, R x x) (hf : ∀ x, R x (f x)) :
    ∀ l : List α, List.Forall₂ R l (updateFirst p f l) := by
  intro l
  induction l with
  | nil => exact List.Forall₂.nil
  | cons x xs ih =>
    cases hx : p x with
    | true =>
      simp only [updateFirst, hx, if_true]
      exact List.Forall₂.cons (hf x) (List.forall₂_same.mpr (fun y _ => hrefl y))
    | false =>
      simp only [updateFirst, hx, Bool.false_eq_true, if_false]
      exact List.Forall₂.cons (hrefl x) ih

/-! ## Claim theorems -/

/-- C1: the claim states that every valid (profession_id, topic_id)
request to POST /analogies/generate returns HTTP 200 with non-empty
analogy fields even when the external call fails.  The code disagrees:
for a catalog containing the requested ids and for every external-call
behavior whatsoever, the endpoint answers 500 and persists no analogy
row, because the log line at line 90 dereferences `request.max_tokens`
and `request.response_format`, which the `AnalogyRequest` schema does
not declare, so the catch-all handler fires before the generation
service (whose fallback indeed never raises) is even consulted. -/
theorem c1_valid_request_yields_500 :
    ∀ oracle : CompletionRequest → Option String,
      (generate_personalized_analogy demoDB demoRequest oracle).2 = .httpError 500 ∧
      (generate_personalized_analogy demoDB demoRequest oracle).1.generated_analogies = [] :=
  fun _ => ⟨rfl, rfl⟩

/-- C2 counterexample: at token budget 2000 and the concrete built
prompt `c2_prompt` (165 words, estimated input 214.5 tokens), the code
computes `min(2000 − 214, 1500) = 1500` and sends 1500, while the
claimed formula `max(2000 − 214.5, 1500)` gives 1785.5: the claim is
false as stated. -/
theorem c2_budget_formula_counterexample :
    safe_max_tokens 2000 c2_prompt = 1500 ∧
    (completion_request_of "cooking" "recursion" (some "A function calling itself")
      "Programming" (some "intermediate") 3 2000 "detailed").max_tokens = 1500 ∧
    claimed_safe_output_budget 2000 c2_prompt = 3571 / 2 ∧
    safe_max_tokens 2000 c2_prompt ≠ claimed_safe_output_budget 2000 c2_prompt := by
  have hw : (pyWords c2_prompt).length = 165 := rfl
  have h1 : safe_max_tokens 2000 c2_prompt = 1500 := by
    rw [safe_max_tokens, estimated_input_tokens, hw]
    norm_num [Int.floor_eq_iff, min_def, max_def]
  have h2 : claimed_safe_output_budget 2000 c2_prompt = 3571 / 2 := by
    rw [claimed_safe_output_budget, estimated_input_tokens, hw]
    norm_num [max_def]
  refine ⟨h1, ?_, h2, by rw [h1, h2]; norm_num⟩
  show (⌊safe_max_tokens 2000 c2_prompt⌋ : Int) = 1500
  rw [h1]
  norm_num

/-- C2 (amended): for every call to the generation client, the
estimated input token count is `words × 1.3`, and the output budget sent
to the provider is `min(token_budget − int(estimated_input),
token_budget × 0.75)` — min, not max — clamped below by the floor 300
and truncated to an integer. -/
theorem c2_budget_formula_amended (profession concept_name : String)
    (concept_description : Option String) (topic_context : String)
    (difficulty_level : Option String) (creativity_level : Int)
    (max_tokens : Int) (response_format : String) :
    estimated_input_tokens (build_analogy_prompt profession concept_name concept_description
        topic_context difficulty_level creativity_level max_tokens response_format) =
      ((pyWords (build_analogy_prompt profession concept_name concept_description
        topic_context difficulty_level creativity_level max_tokens response_format)).length : ℚ) * (13 / 10) ∧
    (completion_request_of profession concept_name concept_description topic_context
        difficulty_level creativity_level max_tokens response_format).max_tokens =
      ⌊max (min ((max_tokens : ℚ) -
            (⌊estimated_input_tokens (build_analogy_prompt profession concept_name
                concept_description topic_context difficulty_level creativity_level
                max_tokens response_format)⌋ : ℚ))
          ((max_tokens : ℚ) * (3 / 4))) 300⌋ :=
  ⟨rfl, rfl⟩

/-- C3: for a feedback submission on an existing analogy with a 1-5
rating, the stored and returned understanding score is `rating/5`, plus
a 0.2 bonus capped at 1.0 when understanding improved; in particular the
formula yields 1.0 at (5, true), 0.2 at (1, false) and 0.8 at
(3, true). -/
theorem c3_feedback_understanding_score (db : DB) (fb : AnalogyFeedback) (a : AnalogyRow)
    (hfind : db.generated_analogies.find? (fun r => r.id == fb.analogy_id) = some a)
    (h1 : 1 ≤ fb.user_rating) (h5 : fb.user_rating ≤ 5) :
    (submit_analogy_feedback db fb).2 =
      .ok "Feedback submitted successfully" fb.analogy_id fb.user_rating
        (if fb.understanding_improved then min ((fb.user_rating : ℚ) / 5 + 2 / 10) 1
         else (fb.user_rating : ℚ) / 5) ∧
    (submit_analogy_feedback db fb).1.generated_analogies.find? (fun r => r.id == fb.analogy_id) =
      some { a with user_rating := some fb.user_rating,
                    understanding_score :=
                      some (if fb.understanding_improved then min ((fb.user_rating : ℚ) / 5 + 2 / 10) 1
                            else (fb.user_rating : ℚ) / 5) } ∧
    understanding_score_of 5 true = 1 ∧
    understanding_score_of 1 false = 1 / 5 ∧
    understanding_score_of 3 true = 4 / 5 := by
  refine ⟨?_, ?_, ?_, ?_, ?_⟩
  · simp only [submit_analogy_feedback, hfind, understanding_score_of]
  · simp only [submit_analogy_feedback, hfind]
    exact find?_updateFirst (fun r : AnalogyRow => r.id == fb.analogy_id)
      (fun r : AnalogyRow =>
        { r with
          user_rating := some fb.user_rating,
          understanding_score :=
            some (understanding_score_of fb.user_rating fb.understanding_improved) })
      (fun x => rfl) _ _ hfind
  · norm_num [understanding_score_of, min_def]
  · norm_num [understanding_score_of]
  · norm_num [understanding_score_of, min_def]

/-- C3 witness: the concrete submission (rating 3, understanding
improved) on the one-row store returns score 0.8. -/
theorem c3_feedback_understanding_score_witness :
    feedback_db.generated_analogies.find? (fun r => r.id == improvedFeedback.analogy_id) =
      some demoAnalogyRow ∧
    (submit_analogy_feedback feedback_db improvedFeedback).2 =
      .ok "Feedback submitted successfully" 1 3 (4 / 5) := by
  have H := (c3_feedback_understanding_score feedback_db improvedFeedback demoAnalogyRow rfl
    (by decide) (by decide)).1
  refine ⟨rfl, H.trans ?_⟩
  norm_num [improvedFeedback, min_def]

/-- C4: the fallback analogy generator succeeds on every profession
string (including ones absent from the vocabulary table) and every
concept name and description, producing a non-empty title, a non-empty
explanation and at least one example; it is a pure function of its
arguments with no external-call parameter. -/
theorem c4_fallback_generator_total (profession concept_name : String)
    (concept_description : Option String) (generation_time : ℚ) :
    (generate_fallback_analogy profession concept_name concept_description generation_time).1 ≠ "" ∧
    (generate_fallback_analogy profession concept_name concept_description generation_time).2.1 ≠ "" ∧
    (generate_fallback_analogy profession concept_name concept_description generation_time).2.2.1 ≠ [] := by
  refine ⟨?_, ?_, ?_⟩
  · exact append_ne_empty_of_ne _ _ (append_ne_empty_right _ _ (by decide))
  · exact append_ne_empty_right _ _ (by decide)
  · exact List.cons_ne_nil _ _

/-- C5 counterexample: the claim promises 404 whenever a supplied
subtopic_id is unknown, but a supplied subtopic_id of 0 is falsy in
Python, so `if request.subtopic_id:` skips the existence check and the
request proceeds to the 500 produced at the logging line: the response
is 500, not 404. -/
theorem c5_zero_subtopic_counterexample :
    zeroSubtopicRequest.subtopic_id = some 0 ∧
    demoDB.subtopics = [] ∧
    (generate_personalized_analogy demoDB zeroSubtopicRequest (fun _ => none)).2 =
      .httpError 500 :=
  ⟨rfl, rfl, rfl⟩

/-- C5 (amended): a request whose profession_id or topic_id is unknown,
or whose supplied *nonzero* subtopic_id is unknown, is answered 404 and
creates no analogy row; a supplied subtopic_id of 0 is treated as absent
by the Python truthiness test and is exempt. -/
theorem c5_unknown_ids_yield_404 (db : DB) (req : AnalogyRequest)
    (oracle : CompletionRequest → Option String)
    (h : db.professions.find? (fun p => p.id == req.profession_id) = none
       ∨ db.topics.find? (fun t => t.id == req.topic_id) = none
       ∨ ∃ sid, req.subtopic_id = some sid ∧ sid ≠ 0 ∧
           db.subtopics.find? (fun st => st.id == sid) = none) :
    (generate_personalized_analogy db req oracle).2 = .httpError 404 ∧
    (generate_personalized_analogy db req oracle).1.generated_analogies =
      db.generated_analogies := by
  rcases h with h | h | ⟨sid, hs, hnz, hf⟩
  · simp [generate_personalized_analogy, h]
  · cases hp : db.professions.find? (fun p => p.id == req.profession_id) with
    | none => simp [generate_personalized_analogy, hp]
    | some prof => simp [generate_personalized_analogy, hp, h]
  · cases hp : db.professions.find? (fun p => p.id == req.profession_id) with
    | none => simp [generate_personalized_analogy, hp]
    | some prof =>
      cases ht : db.topics.find? (fun t => t.id == req.topic_id) with
      | none => simp [generate_personalized_analogy, hp, ht]
      | some top => simp [generate_personalized_analogy, hp, ht, hs, hnz, hf]

/-- C5 witness: a supplied nonzero subtopic id absent from the catalog
is answered 404 with the analogy table untouched. -/
theorem c5_unknown_ids_yield_404_witness :
    missingSubtopicRequest.subtopic_id = some 7 ∧
    demoDB.subtopics.find? (fun st => st.id == (7 : Int)) = none ∧
    (generate_personalized_analogy demoDB missingSubtopicRequest (fun _ => none)).2 =
      .httpError 404 :=
  ⟨rfl, rfl,
    (c5_unknown_ids_yield_404 demoDB missingSubtopicRequest (fun _ => none)
      (Or.inr (Or.inr ⟨7, rfl, by decide, rfl⟩))).1⟩

/-- C6: while an active session for (user, profession, topic) exists,
the find-or-create step returns that session and leaves the store
unchanged, so a repeated single-threaded call returns the same session
id instead of creating a new row. -/
theorem c6_find_or_create_session_idempotent (db : DB) (u : String) (p t : Int)
    (sid : Option Int) (s0 : SessionRow)
    (h : db.learning_sessions.find? (fun s =>
        s.user_identifier == u && s.profession_id == p && s.topic_id == t && s.is_active) =
      some s0) :
    find_or_create_session db u p t sid = (db, s0) ∧
    find_or_create_session (find_or_create_session db u p t sid).1 u p t sid = (db, s0) := by
  have h1 : find_or_create_session db u p t sid = (db, s0) := by
    simp only [find_or_create_session, h]
  exact ⟨h1, by rw [h1]; exact h1⟩

/-- C6 witness: with session 42 active for ("learner-1", 1, 1), both the
first and the repeated find-or-create call return id 42. -/
theorem c6_find_or_create_session_idempotent_witness :
    active_session_db.learning_sessions.find? (fun s =>
        s.user_identifier == "learner-1" && s.profession_id == 1 && s.topic_id == 1 && s.is_active) =
      some demoSession ∧
    (find_or_create_session active_session_db "learner-1" 1 1 none).2.id = 42 ∧
    (find_or_create_session (find_or_create_session active_session_db "learner-1" 1 1 none).1
      "learner-1" 1 1 none).2.id = 42 := by
  have H := c6_find_or_create_session_idempotent active_session_db "learner-1" 1 1 none
    demoSession rfl
  exact ⟨rfl, by rw [H.1]; rfl, by rw [H.2]; rfl⟩

/-- C7: for every creativity level L between 1 and 5, the completion
request built by the generation client carries temperature
`min(0.3 + 0.15 × L, 1.0)`. -/
theorem c7_temperature_formula (profession concept_name : String)
    (concept_description : Option String) (topic_context : String)
    (difficulty_level : Option String) (L : Int) (max_tokens : Int)
    (response_format : String) (h1 : 1 ≤ L) (h5 : L ≤ 5) :
    (completion_request_of profession concept_name concept_description topic_context
        difficulty_level L max_tokens response_format).temperature =
      min ((3 / 10 : ℚ) + (15 / 100) * (L : ℚ)) 1 := by
  show temperature_of L = _
  rw [temperature_of, mul_comm (L : ℚ) (15 / 100)]

/-- C7 witness: at creativity level 5 the built request's temperature is
the capped value. -/
theorem c7_temperature_formula_witness :
    (1 : Int) ≤ 5 ∧
    (completion_request_of "gaming" "recursion" none "" (some "intermediate") 5 2000
        "detailed").temperature =
      min ((3 / 10 : ℚ) + (15 / 100) * ((5 : Int) : ℚ)) 1 :=
  ⟨by decide,
    c7_temperature_formula "gaming" "recursion" none "" (some "intermediate") 5 2000
      "detailed" (by decide) (by decide)⟩

/-- C8 counterexample: for the 502-character malformed reply, the
degraded explanation is not the raw text truncated to 500 characters, as
the claim states, but that truncation with `"..."` appended. -/
theorem c8_truncation_counterexample :
    (parse_analogy_response malformed_long_reply).explanation ≠
      pyTake malformed_long_reply 500 ∧
    (parse_analogy_response malformed_long_reply).explanation =
      pyTake malformed_long_reply 500 ++ "..." ∧
    (parse_analogy_response malformed_long_reply).examples = [] :=
  ⟨by decide, rfl, rfl⟩

/-- C8 (amended): for every reply body that starts with a brace yet
fails to decode as JSON, the parser returns the fixed degraded title, an
empty example list, and as explanation the raw text when it is at most
500 characters, otherwise its first 500 characters followed by
`"..."`. -/
theorem c8_parse_degrades_to_truncation (content : String)
    (hbrace : headIs (pyStrip content) '\x7b' = true)
    (hfail : jsonLoads content = none) :
    parse_analogy_response content =
      { title := "Understanding Through Analogy",
        explanation := if 500 < content.length then pyTake content 500 ++ "..." else content,
        examples := [] } := by
  simp [parse_analogy_response, hbrace, hfail]

/-- C8 witness: the two-character body is kept whole. -/
theorem c8_parse_degrades_to_truncation_witness :
    headIs (pyStrip "\x7bx") '\x7b' = true ∧
    jsonLoads "\x7bx" = none ∧
    parse_analogy_response "\x7bx" =
      { title := "Understanding Through Analogy", explanation := "\x7bx", examples := [] } :=
  ⟨rfl, rfl, (c8_parse_degrades_to_truncation "\x7bx" rfl rfl).trans (by decide)⟩

/-- C9: the reply body `"{}"` is valid JSON, parses as a success with
title defaulting to "Concept Explanation" and an empty explanation, and
the analogy row the router would build from that result carries an empty
`analogy_explanation`. -/
theorem c9_successful_reply_empty_explanation :
    jsonLoads "\x7b\x7d" = some (.obj []) ∧
    parse_analogy_response "\x7b\x7d" =
      { title := "Concept Explanation", explanation := "", examples := [] } ∧
    (mk_generated_analogy 1 42 "recursion" none
        (parse_analogy_response "\x7b\x7d").title
        (parse_analogy_response "\x7b\x7d").explanation
        (parse_analogy_response "\x7b\x7d").examples 0).analogy_explanation = "" :=
  ⟨rfl, rfl, rfl⟩

/-- C10: on an existing analogy, feedback submission touches only the
found row's `user_rating` and `understanding_score`: every other column
of every row, and every other table, is unchanged, and the result does
not depend on the submitted `feedback_text`. -/
theorem c10_feedback_frame (db : DB) (fb : AnalogyFeedback) (t : Option String) (a : AnalogyRow)
    (hfind : db.generated_analogies.find? (fun r => r.id == fb.analogy_id) = some a) :
    List.Forall₂ (fun r0 r1 =>
        r1.id = r0.id ∧ r1.session_id = r0.session_id ∧
        r1.concept_name = r0.concept_name ∧ r1.concept_description = r0.concept_description ∧
        r1.analogy_title = r0.analogy_title ∧ r1.analogy_explanation = r0.analogy_explanation ∧
        r1.analogy_examples = r0.analogy_examples ∧ r1.ai_model_used = r0.ai_model_used ∧
        r1.generation_time_seconds = r0.generation_time_seconds ∧
        r1.prompt_template_version = r0.prompt_template_version)
      db.generated_analogies
      (submit_analogy_feedback db fb).1.generated_analogies ∧
    (submit_analogy_feedback db fb).1.professions = db.professions ∧
    (submit_analogy_feedback db fb).1.topics = db.topics ∧
    (submit_analogy_feedback db fb).1.subtopics = db.subtopics ∧
    (submit_analogy_feedback db fb).1.learning_sessions = db.learning_sessions ∧
    submit_analogy_feedback db { fb with feedback_text := t } =
      submit_analogy_feedback db fb := by
  refine ⟨?_, ?_, ?_, ?_, ?_, rfl⟩
  · simp only [submit_analogy_feedback, hfind]
    exact forall2_updateFirst _ _ _
      (fun x => ⟨rfl, rfl, rfl, rfl, rfl, rfl, rfl, rfl, rfl, rfl⟩)
      (fun x => ⟨rfl, rfl, rfl, rfl, rfl, rfl, rfl, rfl, rfl, rfl⟩) _
  all_goals simp [submit_analogy_feedback, hfind]

/-- C10 witness: a concrete submission with a feedback text, on the
one-row store, leaves the other tables alone and coincides with the same
submission carrying no text. -/
theorem c10_feedback_frame_witness :
    feedback_db.generated_analogies.find? (fun r => r.id == (1 : Int)) = some demoAnalogyRow ∧
    (submit_analogy_feedback feedback_db
        { analogy_id := 1, user_rating := 5, feedback_text := none,
          understanding_improved := false }).1.learning_sessions =
      feedback_db.learning_sessions ∧
    submit_analogy_feedback feedback_db
        { analogy_id := 1, user_rating := 5, feedback_text := some "ignored",
          understanding_improved := false } =
      submit_analogy_feedback feedback_db
        { analogy_id := 1, user_rating := 5, feedback_text := none,
          understanding_improved := false } := by
  have H := c10_feedback_frame feedback_db
    { analogy_id := 1, user_rating := 5, feedback_text := none, understanding_improved := false }
    (some "ignored") demoAnalogyRow rfl
  exact ⟨rfl, H.2.2.2.2.1, H.2.2.2.2.2⟩

end ConceptBridge
